import Mathlib

/-!
Verification of the `decod_unseen_maintenance` analysis pipeline.

Shallow embedding of the three source files
* `scripts/config.py` (path resolver, subjects list),
* `scripts/run_decod_angles.py` (per-subject decoding aggregator),
* `scripts/plot_decod_angles_bias.py` (bias / significance reporting stage).

Floating point numbers are modelled by `Val`: either a rational number or
NaN.  Arithmetic propagates NaN and every comparison with NaN is false,
matching numpy semantics.

The repository modules `base` (get_predict, get_predict_error, angle_acc)
and the external `jr.stats` reducers (circ_mean, circ_tuning,
repeated_spearman) are not under `src/`; following the specification they
are represented abstractly: the per-subject classifier outputs are fields
of `SubjectData` and the scalar reducers are fields of `Ops`, over which
every pipeline function is parameterized.
-/

/-- Numeric values of the embedding: a float is either a rational number or
NaN.  numpy semantics: arithmetic propagates NaN, comparisons with NaN are
false. -/
inductive Val where
  | nan : Val
  | num : ℚ → Val
deriving DecidableEq, Repr

instance : Inhabited Val := ⟨Val.nan⟩

/-- True exactly on non-NaN values (negation of `np.isnan`). -/
def Val.isNum : Val → Bool
  | Val.nan => false
  | Val.num _ => true

/-- Subtraction, NaN-propagating (numpy `-`). -/
def Val.sub : Val → Val → Val
  | Val.num a, Val.num b => Val.num (a - b)
  | _, _ => Val.nan

/-- Division, NaN-propagating; division by zero is also sent to NaN
(the scripts never hit the float infinity case in the modelled claims). -/
def Val.div : Val → Val → Val
  | Val.num a, Val.num b => if b = 0 then Val.nan else Val.num (a / b)
  | _, _ => Val.nan

/-- Strict comparison; false whenever either side is NaN (numpy `<`). -/
def Val.lt : Val → Val → Bool
  | Val.num a, Val.num b => decide (a < b)
  | _, _ => false

/-- The rational entries of a vector, NaN entries dropped, order kept. -/
def numsOf (v : List Val) : List ℚ :=
  v.filterMap (fun x => match x with | Val.nan => none | Val.num q => some q)

/-- np.nanmean: mean of the non-NaN entries; NaN when none remain. -/
def nanmean (v : List Val) : Val :=
  if (numsOf v).length = 0 then Val.nan
  else Val.num ((numsOf v).sum / (numsOf v).length)

/-- Square of np.nanstd (population variance of the non-NaN entries,
ddof = 0); the square root itself is irrational in general, and every
claim is stated on the square. -/
def nanvar (v : List Val) : Val :=
  if (numsOf v).length = 0 then Val.nan
  else Val.num ((((numsOf v).map
    (fun q => (q - (numsOf v).sum / (numsOf v).length) ^ 2)).sum) / (numsOf v).length)

/-- Square of the plain np.std: NaN as soon as one entry is NaN (no NaN
exclusion), NaN on the empty vector. -/
def npVar (v : List Val) : Val :=
  if v.length = 0 then Val.nan
  else if v.any (fun x => decide (x = Val.nan)) then Val.nan
  else Val.num ((((numsOf v).map
    (fun q => (q - (numsOf v).sum / v.length) ^ 2)).sum) / v.length)

/-- np.mean, NaN-propagating, NaN on the empty vector. -/
def npMean (v : List Val) : Val :=
  if v.length = 0 then Val.nan
  else if v.any (fun x => decide (x = Val.nan)) then Val.nan
  else Val.num ((numsOf v).sum / v.length)

/-- Number of non-NaN entries: `sum(~np.isnan(v))`. -/
def nonNanCount (v : List Val) : ℕ := (numsOf v).length

/-!
Model of `scipy.stats.wilcoxon(d)` (one sample, two sided, default
`zero_method='wilcox'`), as called by the reporting stage.  scipy first
drops the entries equal to zero (`compress(not_equal(d, 0), d)`: a NaN
compares not-equal to zero, so NaN entries are KEPT), sets
`n = len(d)`, ranks `abs(d)` (NaN sorts after every number), forms
`r_plus = sum((d > 0) * r)` and `r_minus = sum((d < 0) * r)` (both
comparisons are false on NaN), takes `T = min(r_plus, r_minus)` and
returns `p = 2 * norm.sf(|T - n(n+1)/4| / sqrt(n(n+1)(2n+1)/24))`.
The p-value is a strictly monotone function of `z^2` for fixed sign, so
the embedding records the rational `z^2` (`wilcoxonZsq`) together with the
sample count `n` (`wilcoxonN`); two inputs with different `z^2` have
different p-values.
-/

/-- The entries scipy keeps after dropping exact zeros: NaN is kept since
`NaN != 0` is true in numpy. -/
def keptVals (v : List Val) : List Val := v.filter (fun x => decide (x ≠ Val.num 0))

/-- The rational (non-NaN) kept entries. -/
def keptNums (v : List Val) : List ℚ := numsOf (keptVals v)

/-- Average (mid) rank of `x` among `xs` ranked by absolute value; NaN
entries sort beyond every number so they never change a number's rank. -/
def midrank (xs : List ℚ) (x : ℚ) : ℚ :=
  ((xs.countP (fun y => decide (|y| < |x|)) : ℚ)) +
    (((xs.countP (fun y => decide (|y| = |x|)) : ℚ)) + 1) / 2

/-- Sum of the ranks of the positive differences. -/
def wilcoxonRplus (v : List Val) : ℚ :=
  (((keptNums v).filter (fun x => decide (0 < x))).map (midrank (keptNums v))).sum

/-- Sum of the ranks of the negative differences. -/
def wilcoxonRminus (v : List Val) : ℚ :=
  (((keptNums v).filter (fun x => decide (x < 0))).map (midrank (keptNums v))).sum

/-- The Wilcoxon statistic `T = min(r_plus, r_minus)`. -/
def wilcoxonT (v : List Val) : ℚ := min (wilcoxonRplus v) (wilcoxonRminus v)

/-- scipy's sample count after zero removal: NaN entries are counted. -/
def wilcoxonN (v : List Val) : ℕ := (keptVals v).length

/-- Square of the normal-approximation z statistic of scipy's wilcoxon;
the two-sided p-value equals `2 * norm.sf(sqrt(z^2))`, injective in
`z^2`, so different `wilcoxonZsq` means different p-value. -/
def wilcoxonZsq (v : List Val) : Val :=
  if wilcoxonN v = 0 then Val.nan
  else
    Val.num (((wilcoxonT v - (wilcoxonN v : ℚ) * ((wilcoxonN v : ℚ) + 1) / 4) ^ 2) /
      ((wilcoxonN v : ℚ) * ((wilcoxonN v : ℚ) + 1) * (2 * (wilcoxonN v : ℚ) + 1) / 24))

/-!
Embedding of `scripts/run_decod_angles.py`.
-/

/-- One row of the trial-metadata table `subevents`
(`events.iloc[events_sel].reset_index()`): only the two columns queried by
the script are modelled. -/
structure Event where
  detect_button : ℕ
  target_present : Bool
deriving DecidableEq, Repr

instance : Inhabited Event := ⟨⟨0, false⟩⟩

/-- A numpy 2-d array with explicit dimensions (so that shapes survive an
empty first axis, as numpy shapes do). -/
structure NpMat where
  rows : ℕ
  cols : ℕ
  entry : ℕ → ℕ → Val

/-- A numpy 3-d array with explicit dimensions. -/
structure Np3 where
  d0 : ℕ
  d1 : ℕ
  d2 : ℕ
  entry : ℕ → ℕ → ℕ → Val

/-- numpy fancy indexing of rows, `m[sel, :]`. -/
def NpMat.selRows (m : NpMat) (sel : List ℕ) : NpMat :=
  ⟨sel.length, m.cols, fun i j => m.entry (sel.getD i 0) j⟩

/-- Modelled from the spec: the scalar reducers of the external `jr.stats`
library and of the repository module `base` (neither under `src/`):
circular mean, error-angle accuracy, circular tuning histogram
(probabilities and bin edges) and per-column repeated Spearman
correlation.  The pipeline is parameterized over them, so every theorem
below holds for any implementation of the missing code. -/
structure Ops where
  circMeanRed : List Val → Val
  accRed : List Val → Val
  circTuning : List Val → ℕ → List Val × List Val
  repSpearCol : List Val → List Val → Val

/-- Modelled from the spec: the per-subject pickled classifier output
(`gat`, loaded through `base.get_predict` / `base.get_predict_error`,
module not under `src/`) together with its trial metadata.  Each field is
one of the arrays the aggregator reads:
* `times`: `gat.train_times_['times']`;
* `yTrue`: `gat.y_true_`;
* `events`: the `subevents` rows;
* `errDyn`: `get_predict_error(gat, mean=False)`, trials x times;
* `predSel`: `get_predict(gat, sel=sel, toi=toi)`, predictions of the
  selected trials in the window;
* `errAtToi`: `get_predict_error(gat, toi=toi)`, per-trial error in the
  window (line 45);
* `errAlign`: `get_predict_error(gat, toi=toi, typ='align_on_diag',
  mean=False)`, trials x (train times in toi) x test times;
* `errEarlyMat`: `get_predict_error(gat, toi=toi, typ='gat')`. -/
structure SubjectData where
  times : List ℚ
  yTrue : List ℚ
  events : List Event
  errDyn : NpMat
  predSel : List ℕ → ℚ × ℚ → List Val
  errAtToi : ℚ × ℚ → List Val
  errAlign : ℚ × ℚ → Np3
  errEarlyMat : ℚ × ℚ → NpMat

/-- `base.angle_acc(m, axis=0)` as used on 2-d arrays: the abstract scalar
reduction applied down each column (numpy axis-0 semantics). -/
def angleAcc0 (ops : Ops) (m : NpMat) : List Val :=
  (List.range m.cols).map (fun j => ops.accRed ((List.range m.rows).map (fun i => m.entry i j)))

/-- pandas `df.query(q).index` on the reset-index table: the positions of
the rows satisfying the boolean query. -/
def pandasQuery (events : List Event) (q : Event → Bool) : List ℕ :=
  (List.range events.length).filter (fun i => q (events.getD i default))

/-- The four canonical time-of-interest windows (line 9), in seconds. -/
def tois : List (ℚ × ℚ) := [(-(1/10), 1/20), (1/10, 1/4), (3/10, 4/5), (9/10, 21/20)]

/-- np.where((times >= toi[0]) & (times < toi[1]))[0] (line 68). -/
def toiIndices (times : List ℚ) (toi : ℚ × ℚ) : List ℕ :=
  (List.range times.length).filter
    (fun j => decide (toi.1 ≤ times.getD j 0) && decide (times.getD j 0 < toi.2))

/-- Line 69: `circ_mean(y_error[:, toi_], axis=1)`, computed over all
trials, one circular mean of the in-window samples per trial. -/
def yErrorToi (ops : Ops) (d : SubjectData) (toi : ℚ × ℚ) : List Val :=
  (List.range d.errDyn.rows).map
    (fun i => ops.circMeanRed ((toiIndices d.times toi).map (fun j => d.errDyn.entry i j)))

/-- One `results_` entry of the subscore section (lines 53-71): the error
dynamics under the key `subanalysis[0]` and the per-toi means under
`subanalysis[0] + '_toi'`. -/
structure SubEntry where
  name : String
  dyn : List Val
  perToi : List Val
deriving DecidableEq

/-- Lines 53-71: one visibility-conditioned subselection.  An empty
selection contributes the NaN placeholders of lines 58-62; otherwise the
dynamics are `angle_acc(y_error[subsel, :], axis=0)` and each per-toi
entry is `angle_acc(circ_mean(y_error[:, toi_], axis=1)[subsel])`. -/
def subscoreEntry (ops : Ops) (d : SubjectData) (sub : String × (Event → Bool)) : SubEntry :=
  let subsel := pandasQuery d.events sub.2
  if subsel = [] then
    { name := sub.1
      dyn := List.replicate d.errDyn.cols Val.nan
      perToi := List.replicate tois.length Val.nan }
  else
    { name := sub.1
      dyn := angleAcc0 ops (d.errDyn.selRows subsel)
      perToi := tois.map
        (fun toi => ops.accRed (subsel.map (fun i => (yErrorToi ops d toi).getD i Val.nan))) }

/-- Lines 51-72: the whole subscore dictionary for one subject.  The list
of named subselection queries (`subscores`, imported from
`scripts.config` but not defined under `src/`) is a parameter. -/
def subscoreSection (ops : Ops) (subs : List (String × (Event → Bool)))
    (d : SubjectData) : List SubEntry :=
  subs.map (subscoreEntry ops d)

/-- The pandas query `'detect_button == %i' % pas + ' and target_present
== True'` of lines 84-86. -/
def pasSel (events : List Event) (pas : ℕ) : List ℕ :=
  pandasQuery events (fun e => decide (e.detect_button = pas) && e.target_present)

/-- Lines 87-95: one visibility stratum of the duration section.  An empty
selection contributes `np.nan * np.zeros(y_error.shape[2])`; otherwise
`np.mean(angle_acc(y_error[sel, ...], axis=0), axis=0)`. -/
def durationPasEntry (ops : Ops) (d : SubjectData) (toi : ℚ × ℚ) (pas : ℕ) : List Val :=
  let y := d.errAlign toi
  let sel := pasSel d.events pas
  if sel = [] then List.replicate y.d2 Val.nan
  else
    (List.range y.d2).map
      (fun j => npMean ((List.range y.d1).map
        (fun t => ops.accRed (sel.map (fun i => y.entry i t j)))))

/-- The `target_present == True` selection of line 98. -/
def presentSel (events : List Event) : List ℕ :=
  pandasQuery events (fun e => e.target_present)

/-- Lines 98-103: the per-toi duration rank correlation.  With
`sel = subevents.query('target_present == True').index`,
`X = angle_acc(y_error[sel, :, :], axis=1)` (one row per selected trial,
one column per testing time) and
`R = repeated_spearman(X.reshape([len(sel), -1]),
np.array(subevents['detect_button'][sel]))`, reshaped to
`y_error.shape[2]`.  There is no emptiness guard: the correlation is
applied whatever `sel` is. -/
def durationR (ops : Ops) (d : SubjectData) (toi : ℚ × ℚ) : List Val :=
  let y := d.errAlign toi
  let sel := presentSel d.events
  (List.range y.d2).map
    (fun j => ops.repSpearCol
      (sel.map (fun i => ops.accRed ((List.range y.d1).map (fun t => y.entry i t j))))
      (sel.map (fun i => Val.num ((d.events.getD i default).detect_button : ℚ))))

/-- Lines 77-105 accumulated per subject: the `align_on_diag` entry. -/
def alignOf (ops : Ops) (d : SubjectData) : List (List (List Val)) :=
  tois.map (fun toi => (List.range 4).map (fun pas => durationPasEntry ops d toi pas))

/-- Line 29: `angle_acc(get_predict_error(gat, mean=False), axis=0)`. -/
def diagOf (ops : Ops) (d : SubjectData) : List Val := angleAcc0 ops d.errDyn

/-- Line 33: the fixed peak decoding window of each analysis. -/
def peakToi (analysis : String) : ℚ × ℚ :=
  if analysis = "target_circAngle" then (1/10, 1/4) else (9/10, 23/20)

/-- np.where(gat.y_true_ == angle)[0] (line 36). -/
def npWhereEq (ys : List ℚ) (a : ℚ) : List ℕ :=
  (List.range ys.length).filter (fun i => decide (ys.getD i 0 = a))

/-- np.unique: the sorted distinct values. -/
def npUnique (l : List ℚ) : List ℚ := l.dedup.insertionSort (fun a b => a ≤ b)

/-- Lines 34-40: one tuning curve (first component of `circ_tuning` with
`n_bins = 24`) per unique true angle, over exactly the trials whose true
label equals that angle, at the peak window. -/
def anglePredOf (ops : Ops) (d : SubjectData) (analysis : String) : List (List Val) :=
  (npUnique d.yTrue).map
    (fun a => (ops.circTuning (d.predSel (npWhereEq d.yTrue a) (peakToi analysis)) 24).1)

/-- Lines 43-48: the tuning curve per canonical toi. -/
def toiTuningOf (ops : Ops) (d : SubjectData) : List (List Val) :=
  tois.map (fun toi => (ops.circTuning (d.errAtToi toi) 24).1)

/-- The value of the loop variable `bins` after one subject's iteration:
the toi loop of lines 44-47 runs after the angle loop and its final
iteration (the fourth toi) performs the last assignment. -/
def binsOf (ops : Ops) (d : SubjectData) : List Val :=
  (ops.circTuning (d.errAtToi (tois.getD 3 (0, 0))) 24).2

/-- The two early windows of line 109. -/
def earlyTois : List (ℚ × ℚ) := [(1/10, 3/20), (17/100, 11/50)]

/-- Lines 108-112: maintenance of early classifiers. -/
def earlyOf (ops : Ops) (d : SubjectData) : List (List Val) :=
  earlyTois.map (fun toi => angleAcc0 ops (d.errEarlyMat toi))

/-- The fixed subjects list of `scripts/config.py` (lines 55-59). -/
def subjects : List String :=
  ["ak130184", "el130086", "ga130053", "gm130176", "hn120493",
   "ia130315", "jd110235", "jm120476", "ma130185", "mc130295",
   "mj130216", "mr080072", "oa130317", "rg110386", "sb120316",
   "tc120199", "ts130283", "yp130276", "av130322", "ps120458"]

/-- The `results` dictionary of lines 14-17 at the end of the subject
loop, together with the loop variables `times` and `bins` read by the
save step (lines 115-116).  The keys `corr_contrast`, `corr_pas`,
`R_contrast` and `R_vis` are initialized and never appended to. -/
structure Results where
  diagonal : List (List Val)
  angle_pred : List (List (List Val))
  toi : List (List (List Val))
  subscore : List (List SubEntry)
  corr_contrast : List (List Val)
  corr_pas : List (List Val)
  R_contrast : List (List Val)
  R_vis : List (List Val)
  align_on_diag : List (List (List (List Val)))
  early_maintain : List (List (List Val))
  R_vis_duration : List (List (List Val))
  times : Option (List ℚ)
  bins : Option (List Val)

/-- The dictionary of lines 14-17 before the subject loop; `times` and
`bins` are not yet assigned. -/
def initResults : Results :=
  { diagonal := [], angle_pred := [], toi := [], subscore := []
    corr_contrast := [], corr_pas := [], R_contrast := [], R_vis := []
    align_on_diag := [], early_maintain := [], R_vis_duration := []
    times := none, bins := none }

/-- One iteration of the subject loop (lines 18-112): every section
appends its per-subject value; `times` and `bins` are overwritten. -/
def subjectStep (ops : Ops) (subs : List (String × (Event → Bool))) (analysis : String)
    (st : Results) (d : SubjectData) : Results :=
  { diagonal := st.diagonal ++ [diagOf ops d]
    angle_pred := st.angle_pred ++ [anglePredOf ops d analysis]
    toi := st.toi ++ [toiTuningOf ops d]
    subscore := st.subscore ++ [subscoreSection ops subs d]
    corr_contrast := st.corr_contrast
    corr_pas := st.corr_pas
    R_contrast := st.R_contrast
    R_vis := st.R_vis
    align_on_diag := st.align_on_diag ++ [alignOf ops d]
    early_maintain := st.early_maintain ++ [earlyOf ops d]
    R_vis_duration := st.R_vis_duration ++ [tois.map (fun toi => durationR ops d toi)]
    times := some d.times
    bins := some (binsOf ops d) }

/-- The whole aggregation step for one analysis: a fold of the subject
loop over the fixed subjects list, `data` assigning to each subject name
its loaded pickle. -/
def aggregate (ops : Ops) (subs : List (String × (Event → Bool))) (analysis : String)
    (data : String → SubjectData) : Results :=
  subjects.foldl (fun st s => subjectStep ops subs analysis st (data s)) initResults

/-!
Embedding of the path resolver `paths` of `scripts/config.py`
(lines 17-53).  The directory-creation side effect (lines 44-51) is I/O
and is not modelled; the dictionary `path_template` and its lookup
`path_template[typ]` are, with `none` standing for the `KeyError` raised
on a key absent from the template.  `base_path` depends on the location
of the script file and is a parameter.
-/

/-- True when the path already ends in the separator. -/
def endsWithSep (s : String) : Bool :=
  match s.data.getLast? with
  | some c => c = '/'
  | none => false

/-- os.path.join for one component (no absolute components occur). -/
def ojoin (a b : String) : String :=
  if a = "" then b else if endsWithSep a then a ++ b else a ++ "/" ++ b

/-- data_path = op.join(base_path, 'data/') (line 11). -/
def dataPath (base : String) : String := ojoin base "data/"

/-- python str.strip('.py'): drop the characters '.', 'p', 'y' from both
ends (line 25). -/
def stripPyChars (s : String) : String :=
  let p : Char → Bool := fun c => c = '.' || c = 'p' || c = 'y'
  ⟨((s.data.dropWhile p).reverse.dropWhile p).reverse⟩

/-- Lines 17-35: build `path_template` and look `typ` up; `none` models
the `KeyError` on an unknown artifact type. -/
def paths (base typ subject data_type lock analysis pyscript : String) : Option String :=
  let this_path := ojoin (ojoin (dataPath base) subject) typ
  if typ = "base_path" then some base
  else if typ = "data_path" then some (dataPath base)
  else if typ = "report" then some (ojoin base "results")
  else if typ = "log" then some (ojoin base (stripPyChars pyscript ++ ".log"))
  else if typ = "behavior" then some (ojoin this_path (subject ++ "_fixed.mat"))
  else if typ = "epoch" then
    some (ojoin this_path (subject ++ "_" ++ lock ++ "_" ++ data_type ++ ".mat"))
  else if typ = "evoked" then
    some (ojoin this_path (subject ++ "_" ++ lock ++ "_" ++ data_type ++ "_" ++ analysis ++ ".pickle"))
  else if typ = "decod" then
    some (ojoin this_path (subject ++ "_" ++ lock ++ "_" ++ data_type ++ "_" ++ analysis ++ ".pickle"))
  else if typ = "generalize" then
    some (ojoin this_path (subject ++ "_" ++ lock ++ "_" ++ data_type ++ "_" ++ analysis ++ ".pickle"))
  else none

/-!
Embedding of `scripts/plot_decod_angles_bias.py`.  The script that writes
the `target_probe` score file read at line 25 is not under `src/`.
-/

/-- Modelled from the spec: the aggregated results mapping loaded by the
reporting stage (`load('score', subject='fsaverage',
analysis='target_probe')`; the producing script is not under `src/`).
Only the entries the verified claims touch are modelled:
* `bias_pval`: per (estimator, reference) a train x test matrix of
  p-values (per-cell Wilcoxon signed-rank across subjects, per the spec);
* `bias_toi`: subject -> estimator -> reference -> toi index -> value;
* `nSubj`: the length of the subject axis. -/
structure PlotResults where
  nSubj : ℕ
  bias_pval : ℕ → ℕ → List (List Val)
  bias_toi : ℕ → ℕ → ℕ → ℕ → Val

/-- Elementwise `p_val < .05` over a p-value matrix: the significance
masks handed to `pretty_gat` (lines 57-59). -/
def sigMask (pmat : List (List Val)) : List (List Bool) :=
  pmat.map (fun row => row.map (fun p => Val.lt p (Val.num (1/20))))

/-- np.diag of a (square) matrix of p-values (line 70). -/
def npDiag (pmat : List (List Val)) : List Val :=
  (List.range pmat.length).map (fun i => (pmat.getD i []).getD i Val.nan)

/-- The diagonal significance mask of line 71: `sig=p_val < .05` on the
diagonal p-values. -/
def diagSig (pmat : List (List Val)) : List Bool :=
  (npDiag pmat).map (fun p => Val.lt p (Val.num (1/20)))

/-- numpy `x.T` viewed as the list of columns of a rectangular
list-of-rows matrix. -/
def colsOf (x : List (List Val)) : List (List Val) :=
  (List.range (x.headD []).length).map (fun j => x.map (fun row => row.getD j Val.nan))

/-- The vectors actually handed to `scipy.stats.wilcoxon` inside
`quick_stats` (line 81 iterates over `x.T`): the raw columns, NaN entries
included. -/
def quickStatsPIn (x : List (List Val)) : List (List Val) := colsOf x

/-- The outputs of `quick_stats` (lines 79-89).  The scipy p-value is
transcendental, so the computation is parameterized by the p-value
function `wilc` applied to each column; `s_sq` holds the square of the
`np.nanstd` values. -/
structure QuickStats where
  pvals : List Val
  sig : List String
  m : List Val
  s_sq : List Val

/-- Lines 79-89: per column (that is, per condition, across the subject
rows) the Wilcoxon p-value, the `'*'` marker exactly when `p < .05`, the
NaN-excluding mean and (squared) NaN-excluding std. -/
def quickStats (wilc : List Val → Val) (x : List (List Val)) : QuickStats :=
  { pvals := (colsOf x).map wilc
    sig := ((colsOf x).map wilc).map (fun p => if Val.lt p (Val.num (1/20)) then "*" else "")
    m := (colsOf x).map nanmean
    s_sq := (colsOf x).map nanvar }

/-- Line 123: `diff = results['bias_toi'][:, 1, 1, 3] -
results['bias_toi'][:, 0, 1, 3]`, the per-subject probe-bias minus
target-bias at the last toi index. -/
def finalDiff (r : PlotResults) : List Val :=
  (List.range r.nSubj).map (fun s => Val.sub (r.bias_toi s 1 1 3) (r.bias_toi s 0 1 3))

/-- The numbers reported by lines 124-127: the Wilcoxon p-value input (the
raw difference vector), the NaN-excluding mean, and the square of
`np.nanstd(diff) / np.sqrt(sum(~np.isnan(diff)))`. -/
structure Contrast where
  p_in : List Val
  m : Val
  sem_sq : Val

/-- Lines 123-127 of the reporting stage. -/
def finalContrast (r : PlotResults) : Contrast :=
  { p_in := finalDiff r
    m := nanmean (finalDiff r)
    sem_sq := Val.div (nanvar (finalDiff r)) (Val.num (nonNanCount (finalDiff r))) }

/-- Lines 131-138, the regression analyses: per toi, `m` is
`np.nanmean(all_R, axis=0)` and the squared SEM is
`np.std(all_R, axis=0)^2 / 20` — the plain, NaN-propagating `np.std`. -/
def regressionStats (allR : List (List Val)) : List Val × List Val :=
  ((colsOf allR).map nanmean,
   (colsOf allR).map (fun c => Val.div (npVar c) (Val.num 20)))

/-!
Concrete fixtures used by the witness theorems.
-/

/-- A trivial instantiation of the abstract reducers. -/
def ops0 : Ops :=
  { circMeanRed := fun _ => Val.num 0
    accRed := fun _ => Val.num 0
    circTuning := fun _ _ => ([Val.num 1], [Val.num 0])
    repSpearCol := fun _ _ => Val.num 0 }

/-- A tiny subject with no trials at all. -/
def d0 : SubjectData :=
  { times := [0]
    yTrue := []
    events := []
    errDyn := ⟨0, 1, fun _ _ => Val.num 0⟩
    predSel := fun _ _ => []
    errAtToi := fun _ => []
    errAlign := fun _ => ⟨0, 1, 2, fun _ _ _ => Val.num 0⟩
    errEarlyMat := fun _ => ⟨0, 0, fun _ _ => Val.nan⟩ }

/-- A tiny subject with one target-present trial. -/
def d1 : SubjectData :=
  { times := [0, 1/5]
    yTrue := [0]
    events := [⟨2, true⟩]
    errDyn := ⟨1, 2, fun _ _ => Val.num (1/3)⟩
    predSel := fun _ _ => [Val.num 0]
    errAtToi := fun _ => [Val.num 0]
    errAlign := fun _ => ⟨1, 1, 2, fun _ _ _ => Val.num 0⟩
    errEarlyMat := fun _ => ⟨1, 2, fun _ _ => Val.num 0⟩ }

/-- The everywhere-false subselection query. -/
def qFalse : Event → Bool := fun _ => false

/-- The everywhere-true subselection query. -/
def qTrue : Event → Bool := fun _ => true

/-!
Helper lemmas (shared by several claims).
-/

/-- getD of a mapped range, the basic indexing fact used throughout. -/
theorem getD_map_range {α : Type} (f : ℕ → α) (n i : ℕ) (dflt : α) :
    ((List.range n).map f).getD i dflt = if i < n then f i else dflt := by
  by_cases h : i < n
  · rw [List.getD_eq_getElem?_getD, List.getElem?_map, List.getElem?_range h]
    simp [h]
  · rw [List.getD_eq_getElem?_getD, List.getElem?_map,
      List.getElem?_eq_none (by simpa using Nat.le_of_not_lt h)]
    simp [h]

/-- The strict threshold test succeeds exactly on a number strictly below
the threshold; in particular a NaN p-value is never significant. -/
theorem lt_thresh_iff (p : Val) (c : ℚ) :
    Val.lt p (Val.num c) = true ↔ ∃ q, p = Val.num q ∧ q < c := by
  cases p <;> simp [Val.lt]

/-- Dropping the NaN entries first does not change the retained rationals. -/
theorem numsOf_filter_isNum (v : List Val) : numsOf (v.filter Val.isNum) = numsOf v := by
  induction v with
  | nil => rfl
  | cons x xs ih =>
    cases x with
    | nan => simpa [numsOf, Val.isNum] using ih
    | num q => simpa [numsOf, Val.isNum] using ih

/-- np.nanmean already excludes NaN entries. -/
theorem nanmean_filter (v : List Val) : nanmean (v.filter Val.isNum) = nanmean v := by
  simp only [nanmean, numsOf_filter_isNum]

/-- np.nanstd already excludes NaN entries. -/
theorem nanvar_filter (v : List Val) : nanvar (v.filter Val.isNum) = nanvar v := by
  simp only [nanvar, numsOf_filter_isNum]

/-- The retained rationals of two permuted vectors are permuted. -/
theorem numsOf_perm {v w : List Val} (h : v.Perm w) : (numsOf v).Perm (numsOf w) :=
  h.filterMap _

/-- np.nanmean is invariant under reordering of the input vector. -/
theorem nanmean_perm {v w : List Val} (h : v.Perm w) : nanmean v = nanmean w := by
  simp only [nanmean, (numsOf_perm h).length_eq, (numsOf_perm h).sum_eq]

/-- Squared np.nanstd is invariant under reordering of the input. -/
theorem nanvar_perm {v w : List Val} (h : v.Perm w) : nanvar v = nanvar w := by
  simp only [nanvar, (numsOf_perm h).length_eq, (numsOf_perm h).sum_eq]
  rw [((numsOf_perm h).map _).sum_eq]

/-- l.any is invariant under permutation. -/
theorem any_perm {α : Type} (p : α → Bool) {v w : List α} (h : v.Perm w) :
    v.any p = w.any p := by
  cases hw : w.any p
  · rw [List.any_eq_false] at hw ⊢
    exact fun x hx => hw x (h.mem_iff.1 hx)
  · rw [List.any_eq_true] at hw ⊢
    obtain ⟨x, hx, hp⟩ := hw
    exact ⟨x, h.mem_iff.2 hx, hp⟩

/-- Squared plain np.std is invariant under reordering of the input. -/
theorem npVar_perm {v w : List Val} (h : v.Perm w) : npVar v = npVar w := by
  simp only [npVar, h.length_eq, any_perm _ h,
    (numsOf_perm h).length_eq, (numsOf_perm h).sum_eq]
  rw [((numsOf_perm h).map _).sum_eq]

/-- The entries scipy keeps are permuted along with the input. -/
theorem keptVals_perm {v w : List Val} (h : v.Perm w) : (keptVals v).Perm (keptVals w) :=
  h.filter _

/-- The kept rationals are permuted along with the input. -/
theorem keptNums_perm {v w : List Val} (h : v.Perm w) : (keptNums v).Perm (keptNums w) :=
  (keptVals_perm h).filterMap _

/-- Mid-ranks only depend on the multiset of kept values. -/
theorem midrank_keptNums_eq {v w : List Val} (h : v.Perm w) :
    midrank (keptNums v) = midrank (keptNums w) := by
  funext x
  simp only [midrank, (keptNums_perm h).countP_eq]

/-- The positive rank sum is invariant under reordering. -/
theorem wilcoxonRplus_perm {v w : List Val} (h : v.Perm w) :
    wilcoxonRplus v = wilcoxonRplus w := by
  unfold wilcoxonRplus
  rw [midrank_keptNums_eq h]
  exact (((keptNums_perm h).filter _).map _).sum_eq

/-- The negative rank sum is invariant under reordering. -/
theorem wilcoxonRminus_perm {v w : List Val} (h : v.Perm w) :
    wilcoxonRminus v = wilcoxonRminus w := by
  unfold wilcoxonRminus
  rw [midrank_keptNums_eq h]
  exact (((keptNums_perm h).filter _).map _).sum_eq

/-- scipy's sample count is invariant under reordering. -/
theorem wilcoxonN_perm {v w : List Val} (h : v.Perm w) : wilcoxonN v = wilcoxonN w :=
  (keptVals_perm h).length_eq

/-- The squared z statistic (hence the p-value) of scipy's wilcoxon is
invariant under reordering: interleaved or trailing NaNs give the same
output. -/
theorem wilcoxonZsq_perm {v w : List Val} (h : v.Perm w) : wilcoxonZsq v = wilcoxonZsq w := by
  unfold wilcoxonZsq wilcoxonT
  rw [wilcoxonRplus_perm h, wilcoxonRminus_perm h, wilcoxonN_perm h]

/-- The subject fold only depends on the data of the subjects in the
list: replacing the data assignment by a pointwise-equal one gives the
same accumulated results. -/
theorem foldl_step_congr (ops : Ops) (subs : List (String × (Event → Bool))) (a : String)
    (d d' : String → SubjectData) :
    ∀ (l : List String) (st : Results), (∀ s ∈ l, d s = d' s) →
    l.foldl (fun st s => subjectStep ops subs a st (d s)) st =
    l.foldl (fun st s => subjectStep ops subs a st (d' s)) st := by
  intro l
  induction l with
  | nil => intro st _; rfl
  | cons x xs ih =>
    intro st h
    simp only [List.foldl_cons]
    rw [h x (List.mem_cons_self x xs)]
    exact ih _ (fun s hs => h s (List.mem_cons_of_mem _ hs))

/-!
The claims.
-/

/-- C1: for every subject and every subselection query matching zero
trials the aggregation stores NaN placeholders of the non-empty shapes
(no exception is raised: the embedded sections are total functions): the
error dynamics get one NaN per time sample (`y_error.shape[1]` columns of
the dynamics array), the per-toi entry one NaN per toi, and each
visibility stratum of the duration section a NaN vector of length
`n_test_times` (`y_error.shape[2]`); in all cases the entry has the same
length as in the non-empty case, keeping result lists aligned. -/
theorem claim1_zero_trial_nan_placeholder :
    ∀ (ops : Ops) (d : SubjectData) (name : String) (q : Event → Bool)
      (toi : ℚ × ℚ) (pas : ℕ),
    (pandasQuery d.events q = [] →
      subscoreEntry ops d (name, q) =
        { name := name
          dyn := List.replicate d.errDyn.cols Val.nan
          perToi := List.replicate tois.length Val.nan }) ∧
    (subscoreEntry ops d (name, q)).dyn.length = d.errDyn.cols ∧
    (subscoreEntry ops d (name, q)).perToi.length = tois.length ∧
    (pasSel d.events pas = [] →
      durationPasEntry ops d toi pas = List.replicate (d.errAlign toi).d2 Val.nan) ∧
    (durationPasEntry ops d toi pas).length = (d.errAlign toi).d2 := by
  intro ops d name q toi pas
  refine ⟨?_, ?_, ?_, ?_, ?_⟩
  · intro h; simp [subscoreEntry, h]
  · by_cases h : pandasQuery d.events q = []
    · simp [subscoreEntry, h]
    · simp [subscoreEntry, h, angleAcc0, NpMat.selRows]
  · by_cases h : pandasQuery d.events q = [] <;> simp [subscoreEntry, h]
  · intro h; simp [durationPasEntry, h]
  · by_cases h : pasSel d.events pas = [] <;> simp [durationPasEntry, h]

/-- Witness for C1: a concrete subject with no matching trial hits the
NaN placeholders of the stated shapes. -/
theorem claim1_witness :
    pandasQuery d0.events qFalse = [] ∧
    subscoreEntry ops0 d0 ("unseen", qFalse) =
      { name := "unseen"
        dyn := List.replicate d0.errDyn.cols Val.nan
        perToi := List.replicate tois.length Val.nan } ∧
    pasSel d0.events 0 = [] ∧
    durationPasEntry ops0 d0 (0, 0) 0 = List.replicate (d0.errAlign (0, 0)).d2 Val.nan :=
  ⟨rfl,
   (claim1_zero_trial_nan_placeholder ops0 d0 "unseen" qFalse (0, 0) 0).1 rfl,
   rfl,
   (claim1_zero_trial_nan_placeholder ops0 d0 "unseen" qFalse (0, 0) 0).2.2.2.1 rfl⟩

/-- C3 (code bug): the aggregator saves through
`paths('score', subject='fsaverage', analysis=analysis + '-tuning')`
(run_decod_angles.py line 117), but `path_template` in config.py has no
`'score'` key, so the lookup raises `KeyError` (modelled by `none`)
instead of returning a path; a key that is present, such as `'decod'`,
does resolve to a path under the fixed layout. -/
theorem claim3_paths_score_missing :
    paths "." "score" "fsaverage" "erf" "target" "target_circAngle-tuning" "config.py" = none ∧
    paths "." "decod" "fsaverage" "erf" "target" "target_circAngle-tuning" "config.py" =
      some "./data/fsaverage/decod/fsaverage_target_erf_target_circAngle-tuning.pickle" := by
  constructor <;> decide

/-- C9: the `times` and `bins` entries of the saved mapping are whatever
the loop variables hold after the final iteration, i.e. they come from
the last subject of the fixed list (`ps120458`) — for every data
assignment, with no agreement check across subjects. -/
theorem claim9_times_bins_last_subject :
    ∀ (ops : Ops) (subs : List (String × (Event → Bool))) (analysis : String)
      (data : String → SubjectData),
    (aggregate ops subs analysis data).times = some ((data "ps120458").times) ∧
    (aggregate ops subs analysis data).bins =
      some ((ops.circTuning ((data "ps120458").errAtToi (9/10, 21/20)) 24).2) ∧
    subjects.getLast? = some "ps120458" := by
  intro ops subs analysis data
  exact ⟨rfl, rfl, rfl⟩

/-- C10: the duration rank-correlation step has no zero-trials guard: for
every toi the repeated Spearman correlation is applied to the
`target_present == True` subset unconditionally — in particular, when
that subset is empty the correlation receives the empty data rather than
a NaN placeholder being stored. -/
theorem claim10_duration_spearman_unguarded :
    ∀ (ops : Ops) (d : SubjectData) (toi : ℚ × ℚ),
    durationR ops d toi =
      (List.range (d.errAlign toi).d2).map
        (fun j => ops.repSpearCol
          ((presentSel d.events).map
            (fun i => ops.accRed ((List.range (d.errAlign toi).d1).map
              (fun t => (d.errAlign toi).entry i t j))))
          ((presentSel d.events).map
            (fun i => Val.num ((d.events.getD i default).detect_button : ℚ)))) ∧
    (presentSel d.events = [] →
      durationR ops d toi =
        (List.range (d.errAlign toi).d2).map (fun _ => ops.repSpearCol [] [])) := by
  intro ops d toi
  constructor
  · rfl
  · intro h; simp [durationR, h]

/-- Witness for C10: a subject with no target-present trial still reaches
the correlation, on empty data. -/
theorem claim10_witness :
    presentSel d0.events = [] ∧
    durationR ops0 d0 (0, 0) =
      (List.range (d0.errAlign (0, 0)).d2).map (fun _ => ops0.repSpearCol [] []) :=
  ⟨rfl, (claim10_duration_spearman_unguarded ops0 d0 (0, 0)).2 rfl⟩

/-- Characterization of the subject fold: every appended section of the
accumulated results is the initial one followed by the per-subject values
in list order, and the never-appended keys are untouched. -/
theorem foldl_step_fields (ops : Ops) (subs : List (String × (Event → Bool))) (a : String)
    (d : String → SubjectData) :
    ∀ (l : List String) (st : Results),
    (l.foldl (fun st s => subjectStep ops subs a st (d s)) st).diagonal =
      st.diagonal ++ l.map (fun s => diagOf ops (d s)) ∧
    (l.foldl (fun st s => subjectStep ops subs a st (d s)) st).angle_pred =
      st.angle_pred ++ l.map (fun s => anglePredOf ops (d s) a) ∧
    (l.foldl (fun st s => subjectStep ops subs a st (d s)) st).toi =
      st.toi ++ l.map (fun s => toiTuningOf ops (d s)) ∧
    (l.foldl (fun st s => subjectStep ops subs a st (d s)) st).subscore =
      st.subscore ++ l.map (fun s => subscoreSection ops subs (d s)) ∧
    (l.foldl (fun st s => subjectStep ops subs a st (d s)) st).align_on_diag =
      st.align_on_diag ++ l.map (fun s => alignOf ops (d s)) ∧
    (l.foldl (fun st s => subjectStep ops subs a st (d s)) st).early_maintain =
      st.early_maintain ++ l.map (fun s => earlyOf ops (d s)) ∧
    (l.foldl (fun st s => subjectStep ops subs a st (d s)) st).R_vis_duration =
      st.R_vis_duration ++ l.map (fun s => tois.map (fun toi => durationR ops (d s) toi)) ∧
    (l.foldl (fun st s => subjectStep ops subs a st (d s)) st).corr_contrast =
      st.corr_contrast ∧
    (l.foldl (fun st s => subjectStep ops subs a st (d s)) st).corr_pas = st.corr_pas ∧
    (l.foldl (fun st s => subjectStep ops subs a st (d s)) st).R_contrast = st.R_contrast ∧
    (l.foldl (fun st s => subjectStep ops subs a st (d s)) st).R_vis = st.R_vis := by
  intro l
  induction l with
  | nil => intro st; simp
  | cons x xs ih =>
    intro st
    obtain ⟨h1, h2, h3, h4, h5, h6, h7, h8, h9, h10, h11⟩ :=
      ih (subjectStep ops subs a st (d x))
    simp only [List.foldl_cons, List.map_cons]
    exact ⟨by rw [h1]; simp [subjectStep], by rw [h2]; simp [subjectStep],
      by rw [h3]; simp [subjectStep], by rw [h4]; simp [subjectStep],
      by rw [h5]; simp [subjectStep], by rw [h6]; simp [subjectStep],
      by rw [h7]; simp [subjectStep], by rw [h8]; simp [subjectStep],
      by rw [h9]; simp [subjectStep], by rw [h10]; simp [subjectStep],
      by rw [h11]; simp [subjectStep]⟩

/-- C4: the aggregation is deterministic and accumulates in the fixed
subjects-list order: it depends only on the data of the listed subjects
(equal inputs give an equal results mapping, hence equal serialized
output), every appended section equals the map of its per-subject
computation over the subjects list, and the never-appended keys stay
empty. -/
theorem claim4_deterministic_order :
    ∀ (ops : Ops) (subs : List (String × (Event → Bool))) (a : String)
      (d d' : String → SubjectData),
    (∀ s ∈ subjects, d s = d' s) →
    aggregate ops subs a d = aggregate ops subs a d' ∧
    (aggregate ops subs a d).diagonal = subjects.map (fun s => diagOf ops (d s)) ∧
    (aggregate ops subs a d).angle_pred = subjects.map (fun s => anglePredOf ops (d s) a) ∧
    (aggregate ops subs a d).toi = subjects.map (fun s => toiTuningOf ops (d s)) ∧
    (aggregate ops subs a d).subscore = subjects.map (fun s => subscoreSection ops subs (d s)) ∧
    (aggregate ops subs a d).align_on_diag = subjects.map (fun s => alignOf ops (d s)) ∧
    (aggregate ops subs a d).early_maintain = subjects.map (fun s => earlyOf ops (d s)) ∧
    (aggregate ops subs a d).R_vis_duration =
      subjects.map (fun s => tois.map (fun toi => durationR ops (d s) toi)) ∧
    (aggregate ops subs a d).corr_contrast = [] ∧
    (aggregate ops subs a d).corr_pas = [] ∧
    (aggregate ops subs a d).R_contrast = [] ∧
    (aggregate ops subs a d).R_vis = [] := by
  intro ops subs a d d' h
  obtain ⟨h1, h2, h3, h4, h5, h6, h7, h8, h9, h10, h11⟩ :=
    foldl_step_fields ops subs a d subjects initResults
  exact ⟨foldl_step_congr ops subs a d d' subjects initResults h,
    by simpa [initResults] using h1, by simpa [initResults] using h2,
    by simpa [initResults] using h3, by simpa [initResults] using h4,
    by simpa [initResults] using h5, by simpa [initResults] using h6,
    by simpa [initResults] using h7, by simpa [initResults] using h8,
    by simpa [initResults] using h9, by simpa [initResults] using h10,
    by simpa [initResults] using h11⟩

/-- Witness for C4 at a concrete data assignment. -/
theorem claim4_witness :
    aggregate ops0 [] "target_circAngle" (fun _ => d0) =
      aggregate ops0 [] "target_circAngle" (fun _ => d0) ∧
    (aggregate ops0 [] "target_circAngle" (fun _ => d0)).diagonal =
      subjects.map (fun _ => diagOf ops0 d0) :=
  ⟨(claim4_deterministic_order ops0 [] "target_circAngle" (fun _ => d0) (fun _ => d0)
      (fun _ _ => rfl)).1,
   (claim4_deterministic_order ops0 [] "target_circAngle" (fun _ => d0) (fun _ => d0)
      (fun _ _ => rfl)).2.1⟩

/-- C6: the per-true-angle tuning section computes, at the fixed peak
window of the analysis, one `circ_tuning` histogram with 24 bins per
unique true-label value, over exactly the trials whose true label equals
that value (`np.where(y_true == angle)[0]` is precisely the set of
in-range indices with that label, and `np.unique` enumerates each value
present once). -/
theorem claim6_tuning_per_angle :
    ∀ (ops : Ops) (d : SubjectData) (a : String) (ys : List ℚ) (v : ℚ) (i : ℕ),
    anglePredOf ops d a =
      (npUnique d.yTrue).map
        (fun ang => (ops.circTuning (d.predSel (npWhereEq d.yTrue ang) (peakToi a)) 24).1) ∧
    (anglePredOf ops d a).length = (npUnique d.yTrue).length ∧
    (i ∈ npWhereEq ys v ↔ i < ys.length ∧ ys.getD i 0 = v) ∧
    (v ∈ npUnique ys ↔ v ∈ ys) ∧
    (npUnique ys).Nodup ∧
    peakToi "target_circAngle" = (1/10, 1/4) ∧
    peakToi "probe_circAngle" = (9/10, 23/20) := by
  intro ops d a ys v i
  refine ⟨rfl, by simp [anglePredOf], ?_, ?_, ?_, rfl, rfl⟩
  · simp [npWhereEq, List.mem_filter, List.mem_range]
  · simp [npUnique, List.mem_insertionSort, List.mem_dedup]
  · exact ((List.perm_insertionSort _ _).nodup_iff).2 (List.nodup_dedup ys)

/-- C7: the aggregator uses exactly the four canonical toi windows, a
time sample belongs to a window exactly when `start <= t < end`, and for
a non-empty subselection each per-toi mean error is the angle accuracy,
over the selected trials, of the circular mean over the window's time
samples (in that order: circular mean over time first, then accuracy
over trials). -/
theorem claim7_tois_and_composition :
    tois = [(-(1/10 : ℚ), (1/20 : ℚ)), (1/10, 1/4), (3/10, 4/5), (9/10, 21/20)] ∧
    (∀ (times : List ℚ) (t : ℚ × ℚ) (j : ℕ),
      j ∈ toiIndices times t ↔
        j < times.length ∧ t.1 ≤ times.getD j 0 ∧ times.getD j 0 < t.2) ∧
    (∀ (ops : Ops) (d : SubjectData) (name : String) (q : Event → Bool),
      pandasQuery d.events q ≠ [] →
      (subscoreEntry ops d (name, q)).perToi =
        tois.map (fun t => ops.accRed ((pandasQuery d.events q).map
          (fun i => (yErrorToi ops d t).getD i Val.nan)))) ∧
    (∀ (ops : Ops) (d : SubjectData) (t : ℚ × ℚ) (i : ℕ),
      (yErrorToi ops d t).getD i Val.nan =
        if i < d.errDyn.rows then
          ops.circMeanRed ((toiIndices d.times t).map (fun j => d.errDyn.entry i j))
        else Val.nan) := by
  refine ⟨rfl, ?_, ?_, ?_⟩
  · intro times t j
    simp [toiIndices, List.mem_filter, List.mem_range]
  · intro ops d name q h
    simp [subscoreEntry, h]
  · intro ops d t i
    simp only [yErrorToi]
    rw [getD_map_range]

/-- Witness for C7: a concrete subject with one selected trial goes
through the circular-mean-then-accuracy composition. -/
theorem claim7_witness :
    pandasQuery d1.events qTrue ≠ [] ∧
    (subscoreEntry ops0 d1 ("seen", qTrue)).perToi =
      tois.map (fun t => ops0.accRed ((pandasQuery d1.events qTrue).map
        (fun i => (yErrorToi ops0 d1 t).getD i Val.nan))) :=
  ⟨by decide, claim7_tois_and_composition.2.2.1 ops0 d1 "seen" qTrue (by decide)⟩


/-- Evaluation: the squared z statistic on the raw column `[1, NaN]`
(the NaN is kept by scipy's zero-compression and counted in `n`). -/
theorem wilcoxonZsq_one_nan : wilcoxonZsq [Val.num 1, Val.nan] = Val.num (9/5) := by
  have hp : wilcoxonRplus [Val.num 1, Val.nan] = 1 := by
    rw [wilcoxonRplus, (by decide : keptNums [Val.num 1, Val.nan] = [1]),
      (by decide : (([1] : List ℚ).filter (fun x => decide (0 < x))) = [1]),
      List.map_cons, List.map_nil, List.sum_cons, List.sum_nil, midrank,
      (by decide : (([1] : List ℚ).countP (fun y => decide (|y| < |(1:ℚ)|))) = 0),
      (by decide : (([1] : List ℚ).countP (fun y => decide (|y| = |(1:ℚ)|))) = 1)]
    norm_num
  have hm : wilcoxonRminus [Val.num 1, Val.nan] = 0 := by
    rw [wilcoxonRminus, (by decide : keptNums [Val.num 1, Val.nan] = [1]),
      (by decide : (([1] : List ℚ).filter (fun x => decide (x < 0))) = []),
      List.map_nil, List.sum_nil]
  rw [wilcoxonZsq, (by decide : wilcoxonN [Val.num 1, Val.nan] = 2), wilcoxonT, hp, hm,
    if_neg (by norm_num)]
  congr 1
  rw [min_eq_right (by norm_num : (0:ℚ) ≤ 1)]
  norm_num

/-- Evaluation: the squared z statistic on the NaN-excluded column `[1]`. -/
theorem wilcoxonZsq_one : wilcoxonZsq [Val.num 1] = Val.num 1 := by
  have hp : wilcoxonRplus [Val.num 1] = 1 := by
    rw [wilcoxonRplus, (by decide : keptNums [Val.num 1] = [1]),
      (by decide : (([1] : List ℚ).filter (fun x => decide (0 < x))) = [1]),
      List.map_cons, List.map_nil, List.sum_cons, List.sum_nil, midrank,
      (by decide : (([1] : List ℚ).countP (fun y => decide (|y| < |(1:ℚ)|))) = 0),
      (by decide : (([1] : List ℚ).countP (fun y => decide (|y| = |(1:ℚ)|))) = 1)]
    norm_num
  have hm : wilcoxonRminus [Val.num 1] = 0 := by
    rw [wilcoxonRminus, (by decide : keptNums [Val.num 1] = [1]),
      (by decide : (([1] : List ℚ).filter (fun x => decide (x < 0))) = []),
      List.map_nil, List.sum_nil]
  rw [wilcoxonZsq, (by decide : wilcoxonN [Val.num 1] = 1), wilcoxonT, hp, hm,
    if_neg (by norm_num)]
  congr 1
  rw [min_eq_right (by norm_num : (0:ℚ) ≤ 1)]
  norm_num

/-- Evaluation: the plain squared np.std of the single number 1. -/
theorem npVar_one : npVar [Val.num 1] = Val.num 0 := by
  rw [npVar, if_neg (by decide), if_neg (by decide)]
  simp only [(by decide : numsOf [Val.num 1] = [(1:ℚ)]), List.sum_cons, List.sum_nil,
    List.map_cons, List.map_nil, List.length_cons, List.length_nil]
  congr 1
  norm_num

/-- Counterexample for C2: the claim fails as stated.  The Wilcoxon
p-value computation of the reporting stage is applied to the raw columns
(`quickStatsPIn`), and on the column `[1, NaN]` its squared z statistic
(which determines the p-value) differs from the NaN-excluded one — the
NaN inflates the sample count — so the p-value computation does not
exclude NaN entries; likewise the regression-stage SEM uses the plain
`np.std`, which is NaN on the column `[1, NaN]` but 0 after NaN
removal. -/
theorem claim2_counterexample :
    (quickStatsPIn [[Val.num 1], [Val.nan]]).map wilcoxonZsq ≠
      (quickStatsPIn [[Val.num 1], [Val.nan]]).map
        (fun c => wilcoxonZsq (c.filter Val.isNum)) ∧
    (regressionStats [[Val.num 1], [Val.nan]]).2 ≠ (regressionStats [[Val.num 1]]).2 := by
  constructor
  · have h1 : (quickStatsPIn [[Val.num 1], [Val.nan]]).map wilcoxonZsq = [Val.num (9/5)] := by
      rw [(by decide : quickStatsPIn [[Val.num 1], [Val.nan]] = [[Val.num 1, Val.nan]]),
        List.map_cons, List.map_nil, wilcoxonZsq_one_nan]
    have h2 : (quickStatsPIn [[Val.num 1], [Val.nan]]).map
        (fun c => wilcoxonZsq (c.filter Val.isNum)) = [Val.num 1] := by
      rw [(by decide : quickStatsPIn [[Val.num 1], [Val.nan]] = [[Val.num 1, Val.nan]]),
        List.map_cons, List.map_nil]
      rw [(by decide : ([Val.num 1, Val.nan].filter Val.isNum) = [Val.num 1]), wilcoxonZsq_one]
    rw [h1, h2]
    intro h
    simp only [List.cons.injEq, Val.num.injEq, and_true] at h
    norm_num at h
  · have h3 : (regressionStats [[Val.num 1], [Val.nan]]).2 = [Val.nan] := by decide
    have h4 : (regressionStats [[Val.num 1]]).2 = [Val.num 0] := by
      show (colsOf [[Val.num 1]]).map (fun c => Val.div (npVar c) (Val.num 20)) = [Val.num 0]
      rw [(by decide : colsOf [[Val.num 1]] = [[Val.num 1]]), List.map_cons, List.map_nil,
        npVar_one, Val.div, if_neg (by norm_num)]
      congr 2
      norm_num
    rw [h3, h4]
    simp

/-- C2 as amended: the nanmean-based means and nanstd-based SEMs do
exclude NaN entries, and every aggregate statistic of the reporting stage
(mean, SEM — both variants — and the Wilcoxon z statistic and sample
count, hence the p-value) is invariant under reordering of its input
vector, so interleaved and trailing NaNs give identical output; but the
Wilcoxon p-value (and the plain-std regression SEM) is computed on the
raw vector, NaN entries included. -/
theorem claim2_amended :
    ∀ (v w : List Val) (wilc : List Val → Val) (x : List (List Val)),
    v.Perm w →
    (nanmean v = nanmean w ∧ nanvar v = nanvar w ∧ npVar v = npVar w ∧
      wilcoxonZsq v = wilcoxonZsq w ∧ wilcoxonN v = wilcoxonN w) ∧
    nanmean (v.filter Val.isNum) = nanmean v ∧
    nanvar (v.filter Val.isNum) = nanvar v ∧
    (quickStats wilc x).m = (colsOf x).map (fun c => nanmean (c.filter Val.isNum)) ∧
    (quickStats wilc x).pvals = (quickStatsPIn x).map wilc := by
  intro v w wilc x h
  refine ⟨⟨nanmean_perm h, nanvar_perm h, npVar_perm h, wilcoxonZsq_perm h, wilcoxonN_perm h⟩,
    nanmean_filter v, nanvar_filter v, ?_, rfl⟩
  simp only [quickStats]
  exact List.map_congr_left (fun c _ => (nanmean_filter c).symm)

/-- Witness for C2 as amended, at a concrete permutation moving a NaN
from the front to the back. -/
theorem claim2_witness :
    ([Val.nan, Val.num 1].Perm [Val.num 1, Val.nan]) ∧
    nanmean [Val.nan, Val.num 1] = nanmean [Val.num 1, Val.nan] ∧
    wilcoxonZsq [Val.nan, Val.num 1] = wilcoxonZsq [Val.num 1, Val.nan] := by
  have h : ([Val.nan, Val.num 1]).Perm [Val.num 1, Val.nan] := List.Perm.swap _ _ _
  exact ⟨h, ((claim2_amended _ _ (fun _ => Val.nan) [] h).1).1,
    ((claim2_amended _ _ (fun _ => Val.nan) [] h).1).2.2.2.1⟩

/-- C5: every significance marker or overlay of the reporting stage is a
strict `p < .05` threshold of an uncorrected p-value: the `'*'` markers
of `quick_stats` fire exactly when the raw per-column p-value (one column
per condition, across the subject rows) is a number strictly below 0.05,
and the temporal-generalization and diagonal overlays fire exactly when
the stored per-cell p-value is a number strictly below 0.05 (a NaN
p-value never fires; no multiple-comparisons correction intervenes
between the p-values and the thresholds). -/
theorem claim5_sig_markers :
    ∀ (wilc : List Val → Val) (x : List (List Val)) (j : ℕ)
      (pm : List (List Val)) (i k : ℕ),
    (j < (colsOf x).length →
      ((quickStats wilc x).sig.getD j "" = "*" ↔
        ∃ q, wilc ((colsOf x).getD j []) = Val.num q ∧ q < 1/20)) ∧
    (((sigMask pm).getD i []).getD k false = true ↔
      ∃ q, (pm.getD i []).getD k Val.nan = Val.num q ∧ q < 1/20) ∧
    ((diagSig pm).getD i false = true ↔
      ∃ q, (pm.getD i []).getD i Val.nan = Val.num q ∧ q < 1/20) ∧
    (quickStats wilc x).pvals = (colsOf x).map wilc ∧
    (j < (x.headD []).length →
      (colsOf x).getD j [] = x.map (fun row => row.getD j Val.nan)) := by
  intro wilc x j pm i k
  refine ⟨?_, ?_, ?_, rfl, ?_⟩
  · intro hj
    obtain ⟨c, hc⟩ : ∃ c, (colsOf x)[j]? = some c :=
      ⟨(colsOf x)[j], List.getElem?_eq_getElem hj⟩
    have hgd : (colsOf x).getD j [] = c := by
      rw [List.getD_eq_getElem?_getD, hc]
      rfl
    have hsig : (quickStats wilc x).sig.getD j "" =
        (if Val.lt (wilc c) (Val.num (1/20)) then "*" else "") := by
      simp only [quickStats, List.getD_eq_getElem?_getD, List.getElem?_map, hc,
        Option.map_some', Option.getD_some]
    rw [hsig, hgd, ← lt_thresh_iff (wilc c) (1/20)]
    by_cases hb : Val.lt (wilc c) (Val.num (1/20)) = true
    · rw [if_pos hb]
      exact ⟨fun _ => hb, fun _ => rfl⟩
    · rw [if_neg hb]
      constructor
      · intro hcon; exact absurd hcon (by decide)
      · intro hcon; exact absurd hcon hb
  · simp only [sigMask, List.getD_eq_getElem?_getD, List.getElem?_map]
    cases hrow : pm[i]? with
    | none => simp
    | some row =>
      simp only [Option.map_some', Option.getD_some, List.getElem?_map]
      cases hp : row[k]? with
      | none => simp [hp]
      | some p => simp [hp, lt_thresh_iff]
  · simp only [diagSig, npDiag, List.map_map]
    rw [getD_map_range]
    by_cases hi : i < pm.length
    · rw [if_pos hi]
      simp only [Function.comp_apply]
      exact lt_thresh_iff _ _
    · rw [if_neg hi]
      have hrow : pm.getD i [] = ([] : List Val) := by
        rw [List.getD_eq_getElem?_getD, List.getElem?_eq_none (Nat.le_of_not_lt hi)]
        rfl
      rw [hrow]
      simp
  · intro hj
    simp only [colsOf]
    rw [getD_map_range, if_pos hj]

/-- Witness for C5: one subject column with an always-significant p-value
function. -/
theorem claim5_witness :
    0 < (colsOf [[Val.num 1]]).length ∧
    ((quickStats (fun _ => Val.num 0) [[Val.num 1]]).sig.getD 0 "" = "*" ↔
      ∃ q, (fun _ : List Val => Val.num 0) ((colsOf [[Val.num 1]]).getD 0 []) = Val.num q ∧
        q < 1/20) :=
  ⟨by decide,
   (claim5_sig_markers (fun _ => Val.num 0) [[Val.num 1]] 0 [] 0 0).1 (by decide)⟩

/-- C8: the final contrast of the reporting stage is the per-subject
elementwise difference of the probe slice `bias_toi[:, 1, 1, 3]` and the
target slice `bias_toi[:, 0, 1, 3]` at the last toi index (3 is the last
of the four tois); its reported mean is the NaN-excluding mean, its
squared SEM is the NaN-excluding variance divided by the number of
non-NaN subjects (i.e. SEM = nanstd / sqrt of that count), and the
Wilcoxon p-value is taken on the raw difference vector. -/
theorem claim8_final_contrast :
    ∀ (r : PlotResults),
    (finalContrast r).p_in =
      (List.range r.nSubj).map (fun s => Val.sub (r.bias_toi s 1 1 3) (r.bias_toi s 0 1 3)) ∧
    (finalContrast r).m = nanmean (finalDiff r) ∧
    nanmean (finalDiff r) = nanmean ((finalDiff r).filter Val.isNum) ∧
    (finalContrast r).sem_sq =
      Val.div (nanvar (finalDiff r)) (Val.num (nonNanCount (finalDiff r))) ∧
    nanvar (finalDiff r) = nanvar ((finalDiff r).filter Val.isNum) ∧
    3 + 1 = tois.length := by
  intro r
  exact ⟨rfl, rfl, (nanmean_filter _).symm, rfl, (nanvar_filter _).symm, rfl⟩
